import Mathlib

/-!
Verification of the cryptographic core of construct-messenger-web.

The Rust source is generic over a `CryptoProvider` trait; the embedding
mirrors that: a `CryptoProvider` structure of (possibly failing) primitive
operations over byte strings, and the X3DH / Double-Ratchet protocol code
translated function by function from
`packages/core/src/crypto/handshake/x3dh.rs`,
`packages/core/src/crypto/messaging/double_ratchet.rs`,
`packages/core/src/crypto/suites/classic.rs`,
`packages/core/src/crypto/client_api.rs` and
`packages/core/src/crypto/master_key.rs`.

Modelling conventions:
 - `Bytes := List Nat` stands for `Vec<u8>` / `&[u8]` / `[u8; N]`;
   the concrete key types of `ClassicSuiteProvider` are all `Vec<u8>` and its
   `*_from_bytes` conversions are the identity, so key types are `Bytes` and
   those conversions disappear.
 - Randomness (`OsRng`) is passed in explicitly: freshly generated key pairs
   and nonces are parameters of the functions that generate them in Rust.
 - `&mut self` methods returning `Result<T, String>` become functions
   returning `Session × Except String T`, so that state mutated before an
   early `return Err(..)` is kept, exactly as in Rust.
 - `u32` counters are modelled as `Nat`; no claim concerns wrap-around.
 - `HashMap<u32, V>` is modelled as an association list with no duplicate
   keys (`insertAssoc` replaces, `lookupRemove` mirrors `HashMap::remove`).
 - `SystemTime::now()` is an explicit `now : Nat` parameter.
-/

namespace Construct

/-- Byte strings (`Vec<u8>`). -/
abbrev Bytes := List Nat

/-- UTF-8 bytes of a Rust string literal (all literals used are ASCII). -/
def strBytes (s : String) : Bytes := s.data.map Char.toNat

/-- `u32::to_be_bytes` (big-endian 32-bit encoding). -/
def be32 (n : Nat) : Bytes :=
  [n / 2 ^ 24 % 256, n / 2 ^ 16 % 256, n / 2 ^ 8 % 256, n % 256]

/-- `Result::map_err` composed with a context tag, as produced by
`map_err(|e| format!("ctx: {}", e))`. -/
def withErr (tag : String) : Except String α → Except String α
  | .ok a => .ok a
  | .error e => .error (tag ++ e)

/-- The `CryptoProvider` trait (`crypto/provider.rs`), restricted to the
operations the verified code paths use.  All key types of
`ClassicSuiteProvider` are `Vec<u8>`, so every key is `Bytes` here and the
`*_key_from_bytes` conversions (identities in `classic.rs`) are omitted. -/
structure CryptoProvider where
  /-- `from_private_key_to_public_key` -/
  pubOf : Bytes → Except String Bytes
  /-- `kem_decapsulate(private_key, public_key_bytes)`: X25519 DH. -/
  dh : Bytes → Bytes → Except String Bytes
  /-- `sign(private_key, message)` -/
  sign : Bytes → Bytes → Except String Bytes
  /-- `verify(public_key, message, signature)` -/
  verify : Bytes → Bytes → Bytes → Except String Unit
  /-- `aead_encrypt(key, nonce, plaintext, associated_data)`; the protocol
  code always passes `Some(ad)`, so the `Option` is dropped. -/
  aead_encrypt : Bytes → Bytes → Bytes → Bytes → Except String Bytes
  /-- `aead_decrypt(key, nonce, ciphertext, associated_data)` -/
  aead_decrypt : Bytes → Bytes → Bytes → Bytes → Except String Bytes
  /-- `hkdf_derive_key(salt, ikm, info, len)` -/
  hkdf : Bytes → Bytes → Bytes → Nat → Except String Bytes
  /-- `kdf_rk(root_key, dh_output) → (new_root_key, chain_key)` -/
  kdf_rk : Bytes → Bytes → Except String (Bytes × Bytes)
  /-- `kdf_ck(chain_key) → (message_key, next_chain_key)` -/
  kdf_ck : Bytes → Except String (Bytes × Bytes)
  /-- `suite_id()` -/
  suite_id : Nat

/-- `X3DHPublicKeyBundle` (`handshake/x3dh.rs`). -/
structure X3DHPublicKeyBundle where
  identity_public : Bytes
  signed_prekey_public : Bytes
  signature : Bytes
  verifying_key : Bytes
  suite_id : Nat
deriving DecidableEq, Repr

/-- `X3DHRegistrationBundle` (`handshake/x3dh.rs`). -/
structure X3DHRegistrationBundle where
  identity_public : Bytes
  signed_prekey_public : Bytes
  signature : Bytes
  verifying_key : Bytes
  suite_id : Nat
deriving DecidableEq, Repr

/-- `InitiatorState` (`handshake/mod.rs`): the X3DH ephemeral private key,
handed to the messaging layer as the first DH ratchet key. -/
structure InitiatorState where
  ephemeral_private : Bytes
deriving DecidableEq, Repr

/-- `X3DHProtocol::generate_registration_bundle` (`x3dh.rs`).  The three
freshly generated key pairs (identity, signed prekey, signing) are the
explicit entropy parameters; the private halves of the first two are
discarded exactly as in the source (`_identity_private`,
`_signed_prekey_private`). -/
def generate_registration_bundle (P : CryptoProvider)
    (identity_pair signed_prekey_pair signing_pair : Bytes × Bytes) :
    Except String X3DHRegistrationBundle :=
  match P.sign signing_pair.1 signed_prekey_pair.2 with
  | .error e => .error e
  | .ok signature =>
    .ok { identity_public := identity_pair.2
          signed_prekey_public := signed_prekey_pair.2
          signature := signature
          verifying_key := signing_pair.2
          suite_id := P.suite_id }

/-- `X3DHProtocol::perform_as_initiator` (`x3dh.rs`).  `eph` is the
ephemeral key pair generated at the top of the function. -/
def perform_as_initiator (P : CryptoProvider) (eph : Bytes × Bytes)
    (local_identity : Bytes) (remote_bundle : X3DHPublicKeyBundle) :
    Except String (Bytes × InitiatorState) :=
  let ephemeral_private := eph.1
  let remote_identity_public := remote_bundle.identity_public
  let remote_signed_prekey_public := remote_bundle.signed_prekey_public
  let remote_verifying_key := remote_bundle.verifying_key
  match withErr "Signature verification failed: "
      (P.verify remote_verifying_key remote_signed_prekey_public
        remote_bundle.signature) with
  | .error e => .error e
  | .ok () =>
    match withErr "DH1 failed: "
        (P.dh local_identity remote_signed_prekey_public) with
    | .error e => .error e
    | .ok dh1 =>
      match withErr "DH2 failed: "
          (P.dh ephemeral_private remote_identity_public) with
      | .error e => .error e
      | .ok dh2 =>
        match withErr "DH3 failed: "
            (P.dh ephemeral_private remote_signed_prekey_public) with
        | .error e => .error e
        | .ok dh3 =>
          let combined_dh := dh1 ++ dh2 ++ dh3
          match withErr "HKDF derivation failed: "
              (P.hkdf [] combined_dh (strBytes "X3DH Root Key") 32) with
          | .error e => .error e
          | .ok root_key =>
            .ok (root_key, { ephemeral_private := ephemeral_private })

/-- `X3DHProtocol::perform_as_responder` (`x3dh.rs`). -/
def perform_as_responder (P : CryptoProvider)
    (local_identity local_signed_prekey : Bytes)
    (remote_identity remote_ephemeral : Bytes) : Except String Bytes :=
  match withErr "DH1 failed: " (P.dh local_signed_prekey remote_identity) with
  | .error e => .error e
  | .ok dh1 =>
    match withErr "DH2 failed: " (P.dh local_identity remote_ephemeral) with
    | .error e => .error e
    | .ok dh2 =>
      match withErr "DH3 failed: "
          (P.dh local_signed_prekey remote_ephemeral) with
      | .error e => .error e
      | .ok dh3 =>
        let combined_dh := dh1 ++ dh2 ++ dh3
        withErr "HKDF derivation failed: "
          (P.hkdf [] combined_dh (strBytes "X3DH Root Key") 32)

/-- The fields of `Config` (`config.rs`) that the verified code paths read. -/
structure Config where
  pbkdf2_iterations : Nat
  salt_length : Nat
  key_length : Nat
  nonce_length : Nat
  chacha_nonce_length : Nat
  gcm_tag_length : Nat
  classic_suite_id : Nat
  max_skipped_messages : Nat
  max_skipped_message_age_seconds : Nat
  password_min_length : Nat
deriving DecidableEq, Repr

/-- `Config::default` (`config.rs`). -/
def Config.default : Config :=
  { pbkdf2_iterations := 100000
    salt_length := 32
    key_length := 32
    nonce_length := 12
    chacha_nonce_length := 12
    gcm_tag_length := 16
    classic_suite_id := 1
    max_skipped_messages := 1000
    max_skipped_message_age_seconds := 7 * 24 * 60 * 60
    password_min_length := 8 }

/-- `EncryptedRatchetMessage` (`messaging/double_ratchet.rs`).
`dh_public_key` is `[u8; 32]` in the source; it is a byte list here. -/
structure EncryptedRatchetMessage where
  dh_public_key : Bytes
  message_number : Nat
  ciphertext : Bytes
  nonce : Bytes
  previous_chain_length : Nat
  suite_id : Nat
deriving DecidableEq, Repr

/-- `DoubleRatchetSession` state (`messaging/double_ratchet.rs`).  The two
`HashMap<u32, _>` fields are association lists without duplicate keys;
`session_id` (a random UUID in the source) is an arbitrary string. -/
structure Session where
  suite_id : Nat
  root_key : Bytes
  sending_chain_key : Bytes
  sending_chain_length : Nat
  receiving_chain_key : Bytes
  receiving_chain_length : Nat
  dh_ratchet_private : Option Bytes
  dh_ratchet_public : Bytes
  remote_dh_public : Option Bytes
  previous_sending_length : Nat
  skipped_message_keys : List (Nat × Bytes)
  skipped_key_timestamps : List (Nat × Nat)
  session_id : String
  contact_id : String
deriving DecidableEq, Repr

/-- `HashMap::insert`: replaces the value when the key is present. -/
def insertAssoc (m : List (Nat × α)) (k : Nat) (v : α) : List (Nat × α) :=
  match m with
  | [] => [(k, v)]
  | (k', v') :: rest =>
    if k' = k then (k, v) :: rest else (k', v') :: insertAssoc rest k v

/-- `HashMap::remove`: the removed value (if any) and the remaining map. -/
def lookupRemove (m : List (Nat × α)) (k : Nat) : Option α × List (Nat × α) :=
  match m with
  | [] => (none, [])
  | (k', v) :: rest =>
    if k' = k then (some v, rest)
    else
      let (r, rest') := lookupRemove rest k
      (r, (k', v) :: rest')

/-- `DoubleRatchetSession::new_initiator_session` (`double_ratchet.rs`).
`suite_cfg` is `Config::global().classic_suite_id`.  The X3DH ephemeral
private key from `initiator_state` is reused as the first DH ratchet key
(no fresh key is generated here). -/
def new_initiator_session (P : CryptoProvider) (suite_cfg : Nat)
    (root_key : Bytes) (initiator_state : InitiatorState)
    (remote_identity : Bytes) (contact_id : String) :
    Except String Session :=
  match withErr "Failed to derive root key: "
      (P.hkdf [] root_key (strBytes "InitialRootKey") 32) with
  | .error e => .error e
  | .ok root_key_vec =>
    let root_key_val := root_key_vec
    let dh_private := initiator_state.ephemeral_private
    match withErr "Failed to derive public key: " (P.pubOf dh_private) with
    | .error e => .error e
    | .ok dh_public =>
      match withErr "Failed to perform DH: "
          (P.dh dh_private remote_identity) with
      | .error e => .error e
      | .ok dh_output_secret =>
        match withErr "KDF_RK failed: "
            (P.kdf_rk root_key_val dh_output_secret) with
        | .error e => .error e
        | .ok (root_key', chain_key) =>
          .ok { suite_id := suite_cfg
                root_key := root_key'
                sending_chain_key := chain_key
                sending_chain_length := 0
                receiving_chain_key := []
                receiving_chain_length := 0
                dh_ratchet_private := some dh_private
                dh_ratchet_public := dh_public
                remote_dh_public := some remote_identity
                previous_sending_length := 0
                skipped_message_keys := []
                skipped_key_timestamps := []
                session_id := ""
                contact_id := contact_id }

/-- `DoubleRatchetSession::encrypt` (`double_ratchet.rs`), with the random
nonce passed in.  Returns the mutated session together with the result, so
state changed before an early `Err` return is kept. -/
def Session.encrypt (P : CryptoProvider) (nonce : Bytes) (s : Session)
    (plaintext : Bytes) :
    Session × Except String EncryptedRatchetMessage :=
  match withErr "KDF (CK) failed: " (P.kdf_ck s.sending_chain_key) with
  | .error e => (s, .error e)
  | .ok (message_key, next_chain_key) =>
    let s := { s with sending_chain_key := next_chain_key }
    let message_number := s.sending_chain_length
    let s := { s with sending_chain_length := s.sending_chain_length + 1 }
    if s.dh_ratchet_public.length = 32 then
      let dh_public_key := s.dh_ratchet_public
      let associated_data := dh_public_key ++ be32 message_number
      match withErr "Encryption failed: "
          (P.aead_encrypt message_key nonce plaintext associated_data) with
      | .error e => (s, .error e)
      | .ok ciphertext =>
        (s, .ok { dh_public_key := dh_public_key
                  message_number := message_number
                  ciphertext := ciphertext
                  nonce := nonce
                  previous_chain_length := s.previous_sending_length
                  suite_id := s.suite_id })
    else (s, .error "Invalid public key length")

/-- `DoubleRatchetSession::perform_dh_ratchet` (`double_ratchet.rs`).
`fresh` is the freshly generated DH pair (`generate_kem_keys`). -/
def perform_dh_ratchet (P : CryptoProvider) (fresh : Bytes × Bytes)
    (s : Session) (new_remote_dh : Bytes) : Session × Except String Unit :=
  let s := { s with previous_sending_length := s.sending_chain_length }
  match s.dh_ratchet_private with
  | none => (s, .error "No DH private key")
  | some dh_private =>
    match withErr "DH failed: " (P.dh dh_private new_remote_dh) with
    | .error e => (s, .error e)
    | .ok dh_receive =>
      match withErr "KDF_RK failed: " (P.kdf_rk s.root_key dh_receive) with
      | .error e => (s, .error e)
      | .ok (new_root_key, new_receiving_chain) =>
        let s := { s with root_key := new_root_key
                          receiving_chain_key := new_receiving_chain
                          receiving_chain_length := 0 }
        let (new_dh_private, new_dh_public) := fresh
        match withErr "DH failed: " (P.dh new_dh_private new_remote_dh) with
        | .error e => (s, .error e)
        | .ok dh_send =>
          match withErr "KDF_RK failed: " (P.kdf_rk s.root_key dh_send) with
          | .error e => (s, .error e)
          | .ok (new_root_key2, new_sending_chain) =>
            ({ s with root_key := new_root_key2
                      sending_chain_key := new_sending_chain
                      sending_chain_length := 0
                      dh_ratchet_private := some new_dh_private
                      dh_ratchet_public := new_dh_public
                      remote_dh_public := some new_remote_dh }, .ok ())

/-- `DoubleRatchetSession::decrypt_with_key` (`double_ratchet.rs`). -/
def decrypt_with_key (P : CryptoProvider) (message_key : Bytes)
    (encrypted : EncryptedRatchetMessage) : Except String Bytes :=
  let associated_data :=
    encrypted.dh_public_key ++ be32 encrypted.message_number
  withErr "Decryption failed: "
    (P.aead_decrypt message_key encrypted.nonce encrypted.ciphertext
      associated_data)

/-- The `while self.receiving_chain_length <= encrypted.message_number` loop
of `DoubleRatchetSession::decrypt`.  The fuel argument is the number of
remaining iterations, `message_number + 1 - receiving_chain_length`; the
loop condition is false exactly when the fuel is zero. -/
def decryptLoop (P : CryptoProvider) (now max_skipped : Nat)
    (encrypted : EncryptedRatchetMessage) :
    Nat → Session → Session × Except String Bytes
  | 0, s => (s, .error "Message key not found")
  | fuel + 1, s =>
    match withErr "KDF_CK failed: " (P.kdf_ck s.receiving_chain_key) with
    | .error e => (s, .error e)
    | .ok (msg_key, next_chain) =>
      if s.receiving_chain_length = encrypted.message_number then
        let s := { s with receiving_chain_key := next_chain
                          receiving_chain_length :=
                            s.receiving_chain_length + 1 }
        (s, decrypt_with_key P msg_key encrypted)
      else
        let s := { s with
          skipped_message_keys :=
            insertAssoc s.skipped_message_keys s.receiving_chain_length
              msg_key
          skipped_key_timestamps :=
            insertAssoc s.skipped_key_timestamps s.receiving_chain_length now
          receiving_chain_key := next_chain
          receiving_chain_length := s.receiving_chain_length + 1 }
        if max_skipped < s.skipped_message_keys.length then
          (s, .error "Too many skipped messages")
        else
          decryptLoop P now max_skipped encrypted fuel s

/-- The part of `DoubleRatchetSession::decrypt` after the optional DH
ratchet step: skipped-key lookup (by `message_number` alone, as in the
source `HashMap<u32, _>`; the lookup removes only the key, not its
timestamp), then the symmetric-ratchet loop. -/
def decryptTail (P : CryptoProvider) (now max_skipped : Nat)
    (encrypted : EncryptedRatchetMessage) (s : Session) :
    Session × Except String Bytes :=
  match lookupRemove s.skipped_message_keys encrypted.message_number with
  | (some key, rest) =>
    let s := { s with skipped_message_keys := rest }
    (s, decrypt_with_key P key encrypted)
  | (none, _) =>
    decryptLoop P now max_skipped encrypted
      (encrypted.message_number + 1 - s.receiving_chain_length) s

/-- `DoubleRatchetSession::decrypt` (`double_ratchet.rs`).  `fresh` is the
DH pair generated inside `perform_dh_ratchet` when a ratchet step runs;
`max_skipped` is `Config::global().max_skipped_messages`. -/
def Session.decrypt (P : CryptoProvider) (fresh : Bytes × Bytes)
    (now max_skipped : Nat) (s : Session)
    (encrypted : EncryptedRatchetMessage) : Session × Except String Bytes :=
  let remote_dh_public := encrypted.dh_public_key
  let needs_ratchet : Bool :=
    match s.remote_dh_public with
    | some current_remote => current_remote ≠ remote_dh_public
    | none => true
  let step : Session × Except String Unit :=
    if needs_ratchet then perform_dh_ratchet P fresh s remote_dh_public
    else (s, .ok ())
  match step with
  | (s, .error e) => (s, .error e)
  | (s, .ok ()) => decryptTail P now max_skipped encrypted s

/-- `DoubleRatchetSession::new_responder_session` (`double_ratchet.rs`).
`fresh` is the new DH pair generated for the sending chain.  The first
message is decrypted through `Session.decrypt`; its `dh_public_key` equals
the session's `remote_dh_public`, so the ratchet branch there is inert and
its entropy argument is irrelevant (`fresh` is passed). -/
def new_responder_session (P : CryptoProvider) (fresh : Bytes × Bytes)
    (now max_skipped : Nat) (root_key : Bytes) (local_identity : Bytes)
    (first_message : EncryptedRatchetMessage) (contact_id : String) :
    Except String (Session × Bytes) :=
  let remote_dh_public := first_message.dh_public_key
  match withErr "Failed to derive root key: "
      (P.hkdf [] root_key (strBytes "InitialRootKey") 32) with
  | .error e => .error e
  | .ok root_key_vec =>
    let root_key_val := root_key_vec
    match withErr "Failed to perform DH: "
        (P.dh local_identity remote_dh_public) with
    | .error e => .error e
    | .ok dh_output =>
      match withErr "KDF_RK failed: " (P.kdf_rk root_key_val dh_output) with
      | .error e => .error e
      | .ok (new_root_key, receiving_chain) =>
        let (dh_private, dh_public) := fresh
        match withErr "Failed to perform DH: "
            (P.dh dh_private remote_dh_public) with
        | .error e => .error e
        | .ok dh_output2 =>
          match withErr "KDF_RK failed: "
              (P.kdf_rk new_root_key dh_output2) with
          | .error e => .error e
          | .ok (final_root_key, sending_chain) =>
            let session : Session :=
              { suite_id := first_message.suite_id
                root_key := final_root_key
                sending_chain_key := sending_chain
                sending_chain_length := 0
                receiving_chain_key := receiving_chain
                receiving_chain_length := 0
                dh_ratchet_private := some dh_private
                dh_ratchet_public := dh_public
                remote_dh_public := some remote_dh_public
                previous_sending_length := 0
                skipped_message_keys := []
                skipped_key_timestamps := []
                session_id := ""
                contact_id := contact_id }
            match Session.decrypt P fresh now max_skipped session
                first_message with
            | (session, .ok plaintext) => .ok (session, plaintext)
            | (_, .error e) => .error e

/-- Outcome of a Rust computation that can either return a value or panic
(needed because `GenericArray::from_slice` panics on a length mismatch
instead of returning an error). -/
inductive RustValue (α : Type) where
  | panicked : String → RustValue α
  | value : α → RustValue α
deriving DecidableEq, Repr

namespace ClassicSuite

/-- `ClassicSuiteProvider::aead_decrypt` (`suites/classic.rs`).  The
ChaCha20-Poly1305 cipher itself is the abstract parameter `chacha_open`
(keyed decryption: key, nonce, ciphertext-with-tag, aad).
`Key::from_slice` and `Nonce::from_slice` are `GenericArray::from_slice`,
which PANICS when the slice length is not 32 resp. 12; the source performs
no length check before calling them. -/
def aead_decrypt
    (chacha_open : Bytes → Bytes → Bytes → Bytes → Except String Bytes)
    (key nonce ciphertext : Bytes) (associated_data : Option Bytes) :
    RustValue (Except String Bytes) :=
  if key.length ≠ 32 then
    .panicked "GenericArray::from_slice: key slice length mismatch"
  else if nonce.length ≠ 12 then
    .panicked "GenericArray::from_slice: nonce slice length mismatch"
  else
    let aad := associated_data.getD []
    .value (withErr "AeadDecryptionError: "
      (chacha_open key nonce ciphertext aad))

/-- `ClassicSuiteProvider::kdf_rk` (`suites/classic.rs`), parameterised by
the HKDF-SHA256 primitive `hkdf salt ikm info len`. -/
def kdf_rk (hkdf : Bytes → Bytes → Bytes → Nat → Except String Bytes)
    (root_key dh_output : Bytes) : Except String (Bytes × Bytes) :=
  match withErr "KeyDerivationError: "
      (hkdf root_key dh_output
        (strBytes "Double-Ratchet-Root-Key-Expansion") 64) with
  | .error e => .error e
  | .ok output => .ok (output.take 32, output.drop 32)

/-- `ClassicSuiteProvider::kdf_ck` (`suites/classic.rs`): salt is the chain
key, the IKM is empty. -/
def kdf_ck (hkdf : Bytes → Bytes → Bytes → Nat → Except String Bytes)
    (chain_key : Bytes) : Except String (Bytes × Bytes) :=
  match withErr "KeyDerivationError: "
      (hkdf chain_key []
        (strBytes "Double-Ratchet-Chain-Key-Expansion") 64) with
  | .error e => .error e
  | .ok output => .ok (output.take 32, output.drop 32)

end ClassicSuite

/-- Modelled from the spec: `kdf_rk(root, dh)` as §4.1 words it — HKDF with
`root` as salt, `dh` as IKM, info string "Root-Key-Expansion", output 64
bytes split 32/32.  Used only to compare against `ClassicSuite.kdf_rk`. -/
def kdf_rk_specWording
    (hkdf : Bytes → Bytes → Bytes → Nat → Except String Bytes)
    (root_key dh_output : Bytes) : Except String (Bytes × Bytes) :=
  match hkdf root_key dh_output (strBytes "Root-Key-Expansion") 64 with
  | .error e => .error e
  | .ok output => .ok (output.take 32, output.drop 32)

/-- Modelled from the spec: `kdf_ck(chain)` as §4.1 words it — HKDF with
the chain key as salt, empty IKM, info string "Chain-Key-Expansion". -/
def kdf_ck_specWording
    (hkdf : Bytes → Bytes → Bytes → Nat → Except String Bytes)
    (chain_key : Bytes) : Except String (Bytes × Bytes) :=
  match hkdf chain_key [] (strBytes "Chain-Key-Expansion") 64 with
  | .error e => .error e
  | .ok output => .ok (output.take 32, output.drop 32)

/-- `DoubleRatchetSession::decrypt_with_key` instantiated with
`ClassicSuiteProvider` (`P::aead_decrypt` = `ClassicSuite.aead_decrypt`),
keeping the panic outcome visible. -/
def decrypt_with_key_classic
    (chacha_open : Bytes → Bytes → Bytes → Bytes → Except String Bytes)
    (message_key : Bytes) (encrypted : EncryptedRatchetMessage) :
    RustValue (Except String Bytes) :=
  let associated_data :=
    encrypted.dh_public_key ++ be32 encrypted.message_number
  match ClassicSuite.aead_decrypt chacha_open message_key encrypted.nonce
      encrypted.ciphertext (some associated_data) with
  | .panicked msg => .panicked msg
  | .value r => .value (withErr "Decryption failed: " r)

/-- `PrekeyStore` (`crypto/keys.rs`). -/
structure PrekeyStore where
  key_pair : Bytes × Bytes
  signature : Bytes
  created_at : Nat
  key_id : Nat
deriving DecidableEq, Repr

/-- `KeyManager` (`crypto/keys.rs`): the stored long-lived key material. -/
structure KeyManager where
  identity_key : Option (Bytes × Bytes)
  signing_key : Option (Bytes × Bytes)
  current_signed_prekey : Option PrekeyStore
  old_prekeys : List (Nat × PrekeyStore)
  next_prekey_id : Nat
deriving DecidableEq, Repr

/-- `Client` (`crypto/client_api.rs`): key manager plus per-peer sessions. -/
structure Client where
  key_manager : KeyManager
  sessions : List (String × Session)

/-- `Client::get_registration_bundle` (`client_api.rs`, lines 182-184): the
body is exactly `H::generate_registration_bundle()`, which generates three
fresh key pairs (the explicit entropy parameters here); the client's
`key_manager` is not consulted. -/
def Client.get_registration_bundle (P : CryptoProvider) (_c : Client)
    (identity_pair signed_prekey_pair signing_pair : Bytes × Bytes) :
    Except String X3DHRegistrationBundle :=
  generate_registration_bundle P identity_pair signed_prekey_pair
    signing_pair

/-- `PrivateKeys` (`crypto/master_key.rs`): three 32-byte private keys. -/
structure PrivateKeys where
  identity_secret : Bytes
  signing_key : Bytes
  signed_prekey_secret : Bytes
deriving DecidableEq, Repr

/-- `StoredPrivateKeys` (`storage/models.rs`) as used by `master_key.rs`. -/
structure StoredPrivateKeys where
  user_id : String
  encrypted_identity_private : Bytes
  encrypted_signed_prekey_private : Bytes
  encrypted_signing_key : Bytes
  prekey_signature : Bytes
  salt : Bytes
  created_at : Nat
deriving DecidableEq, Repr

/-- `derive_master_key` (`master_key.rs`), with PBKDF2-HMAC-SHA256 as the
abstract parameter `pbkdf2 password salt iterations`. -/
def derive_master_key (pbkdf2 : String → Bytes → Nat → Bytes) (cfg : Config)
    (password : String) (salt : Bytes) : Except String Bytes :=
  if salt.length ≠ cfg.salt_length then
    .error ("Invalid salt length: expected " ++ toString cfg.salt_length
      ++ ", got " ++ toString salt.length)
  else if password = "" then
    .error "Password cannot be empty"
  else
    .ok (pbkdf2 password salt cfg.pbkdf2_iterations)

/-- `encrypt_data` (`master_key.rs`): AES-256-GCM seal under the master
key, with the random nonce passed in; the result is `nonce ++ ciphertext`.
`gcm_seal key nonce data` is the abstract AES-256-GCM primitive. -/
def encrypt_data (gcm_seal : Bytes → Bytes → Bytes → Except String Bytes)
    (master_key nonce data : Bytes) : Except String Bytes :=
  match withErr "Encryption failed: " (gcm_seal master_key nonce data) with
  | .error e => .error e
  | .ok ciphertext => .ok (nonce ++ ciphertext)

/-- `decrypt_data` (`master_key.rs`): split off the `nonce_length`-byte
nonce, then AES-256-GCM open. -/
def decrypt_data (gcm_open : Bytes → Bytes → Bytes → Except String Bytes)
    (cfg : Config) (master_key data : Bytes) : Except String Bytes :=
  if data.length < cfg.nonce_length then
    .error "Invalid ciphertext: too short"
  else
    let nonce_bytes := data.take cfg.nonce_length
    let ciphertext := data.drop cfg.nonce_length
    withErr "Decryption failed: " (gcm_open master_key nonce_bytes ciphertext)

/-- `to_array_32` (`master_key.rs`). -/
def to_array_32 (vec : Bytes) : Except String Bytes :=
  if vec.length ≠ 32 then
    .error ("Invalid key length: expected 32, got " ++ toString vec.length)
  else
    .ok vec

/-- `encrypt_private_keys` (`master_key.rs`): each of the three keys is
sealed separately with its own fresh nonce (`n_id`, `n_pk`, `n_sk`);
the prekey signature and the salt are stored in the clear. -/
def encrypt_private_keys
    (gcm_seal : Bytes → Bytes → Bytes → Except String Bytes)
    (n_id n_pk n_sk : Bytes) (keys : PrivateKeys) (master_key salt : Bytes)
    (user_id : String) (prekey_signature : Bytes) (created_at : Nat) :
    Except String StoredPrivateKeys :=
  match encrypt_data gcm_seal master_key n_id keys.identity_secret with
  | .error e => .error e
  | .ok encrypted_identity =>
    match encrypt_data gcm_seal master_key n_pk keys.signed_prekey_secret with
    | .error e => .error e
    | .ok encrypted_prekey =>
      match encrypt_data gcm_seal master_key n_sk keys.signing_key with
      | .error e => .error e
      | .ok encrypted_signing =>
        .ok { user_id := user_id
              encrypted_identity_private := encrypted_identity
              encrypted_signed_prekey_private := encrypted_prekey
              encrypted_signing_key := encrypted_signing
              prekey_signature := prekey_signature
              salt := salt
              created_at := created_at }

/-- `decrypt_private_keys` (`master_key.rs`). -/
def decrypt_private_keys
    (gcm_open : Bytes → Bytes → Bytes → Except String Bytes) (cfg : Config)
    (stored : StoredPrivateKeys) (master_key : Bytes) :
    Except String PrivateKeys :=
  match decrypt_data gcm_open cfg master_key
      stored.encrypted_identity_private with
  | .error e => .error e
  | .ok identity_bytes =>
    match decrypt_data gcm_open cfg master_key
        stored.encrypted_signed_prekey_private with
    | .error e => .error e
    | .ok prekey_bytes =>
      match decrypt_data gcm_open cfg master_key
          stored.encrypted_signing_key with
      | .error e => .error e
      | .ok signing_bytes =>
        match to_array_32 identity_bytes with
        | .error e => .error e
        | .ok identity_secret =>
          match to_array_32 prekey_bytes with
          | .error e => .error e
          | .ok prekey_secret =>
            match to_array_32 signing_bytes with
            | .error e => .error e
            | .ok signing_key =>
              .ok { identity_secret := identity_secret
                    signing_key := signing_key
                    signed_prekey_secret := prekey_secret }

/-! Concrete instances used to witness the hypotheses of the theorems and
to evaluate counterexamples.  `TP` is a toy crypto provider: its DH is the
(symmetric) product of byte sums, its AEAD prefixes key, nonce and
associated data to the plaintext and checks that header on opening, and
its KDFs are injective taggings.  All of its operations are total. -/

/-- Toy crypto provider for concrete evaluation. -/
def TP : CryptoProvider where
  pubOf := fun k => .ok k
  dh := fun a b => .ok [a.sum * b.sum + a.length + b.length]
  sign := fun k m => .ok (k ++ m)
  verify := fun vk m sig =>
    if sig = vk ++ m then .ok () else .error "signature error"
  aead_encrypt := fun k n pt ad => .ok (k ++ n ++ ad ++ pt)
  aead_decrypt := fun k n ct ad =>
    if ct.take (k.length + n.length + ad.length) = k ++ n ++ ad then
      .ok (ct.drop (k.length + n.length + ad.length))
    else .error "aead: tag mismatch"
  hkdf := fun salt ikm info len => .ok (len :: salt ++ ikm ++ info)
  kdf_rk := fun r d => .ok (0 :: r ++ d, 1 :: r ++ d)
  kdf_ck := fun c => .ok (2 :: c, 3 :: c)
  suite_id := 1

/-- Toy HKDF that returns only the length of its info argument; it
distinguishes the two candidate info strings of claim C9. -/
def hkdfLen : Bytes → Bytes → Bytes → Nat → Except String Bytes :=
  fun _ _ info _ => .ok [info.length]

/-- Toy HKDF whose 64-byte output is determined by salt and IKM. -/
def hkdf64 : Bytes → Bytes → Bytes → Nat → Except String Bytes :=
  fun salt ikm _ len => .ok (List.replicate len (salt.sum + ikm.sum))

/-- Toy AES-256-GCM seal: length-tags the key, then prefixes key and nonce
to the data. -/
def gcmSealT (key nonce data : Bytes) : Except String Bytes :=
  .ok (key.length :: key ++ nonce ++ data)

/-- Toy AES-256-GCM open: checks the tagged key/nonce header. -/
def gcmOpenT (key nonce data : Bytes) : Except String Bytes :=
  if data.take (1 + key.length + nonce.length) = key.length :: key ++ nonce
  then .ok (data.drop (1 + key.length + nonce.length))
  else .error "aead::Error"

/-- Toy PBKDF2: encodes the password bytes with the salt. -/
def pbkdf2T (password : String) (salt : Bytes) (iterations : Nat) : Bytes :=
  iterations :: salt ++ strBytes password

/-- Session state used for the C4 counterexample: a receiving chain at
counter 0 under remote DH key `[5]`, with an empty skipped-key map. -/
def s0C4 : Session :=
  { suite_id := 1
    root_key := [0]
    sending_chain_key := [1]
    sending_chain_length := 0
    receiving_chain_key := [7]
    receiving_chain_length := 0
    dh_ratchet_private := some [4]
    dh_ratchet_public := [4]
    remote_dh_public := some [5]
    previous_sending_length := 0
    skipped_message_keys := []
    skipped_key_timestamps := []
    session_id := ""
    contact_id := "" }

/-- Incoming message for the C4 counterexample: a new DH public key and
`previous_chain_length = 1`, so the claim demands a skipped key for index
0 of the old chain. -/
def mC4 : EncryptedRatchetMessage :=
  { dh_public_key := [6]
    message_number := 0
    ciphertext := [9]
    nonce := [8]
    previous_chain_length := 1
    suite_id := 1 }

/-- Session state for the C5 counterexample: a skipped key `[9]` cached for
message number 1 of the chain under remote DH key `[5]`. -/
def s0C5 : Session :=
  { s0C4 with skipped_message_keys := [(1, [9])]
              skipped_key_timestamps := [(1, 0)] }

/-- Message for the C5 counterexample: message number 1 from a different
chain (`dh_public_key = [6,6]`), whose ciphertext happens to open under the
cached old-chain key `[9]`. -/
def mC5 : EncryptedRatchetMessage :=
  { dh_public_key := [6, 6]
    message_number := 1
    ciphertext := [9] ++ [0] ++ ([6, 6] ++ be32 1) ++ [42]
    nonce := [0]
    previous_chain_length := 0
    suite_id := 1 }

/-- Session state for the C6 counterexample: same chain as the incoming
message, counter 0, empty skipped map. -/
def s0C6 : Session := { s0C4 with dh_ratchet_public := [5] }

/-- Message for the C6 counterexample: message number 1 of the current
chain, so one skipped key must be derived. -/
def mC6 : EncryptedRatchetMessage :=
  { dh_public_key := [5]
    message_number := 1
    ciphertext := [9]
    nonce := [8]
    previous_chain_length := 0
    suite_id := 1 }

/-- Client for the C3 evaluation: its KeyManager stores identity key pair
`([1],[1])`, signing pair `([10],[10])` and a signed prekey `([11],[11])`. -/
def cC3 : Client :=
  { key_manager :=
      { identity_key := some ([1], [1])
        signing_key := some ([10], [10])
        current_signed_prekey :=
          some { key_pair := ([11], [11])
                 signature := [12]
                 created_at := 0
                 key_id := 1 }
        old_prekeys := []
        next_prekey_id := 2 }
    sessions := [] }

/-- Message with a wrong-size (empty) nonce for the C7 failing input. -/
def mC7 : EncryptedRatchetMessage :=
  { dh_public_key := List.replicate 32 0
    message_number := 0
    ciphertext := [1, 2, 3]
    nonce := []
    previous_chain_length := 0
    suite_id := 1 }

/-! Helper lemmas shared by several claims. -/

theorem withErr_ok_iff {tag : String} {r : Except String α} {a : α} :
    withErr tag r = .ok a ↔ r = .ok a := by
  cases r <;> simp [withErr]

/-- The toy provider's DH is symmetric with respect to its (identity)
public-key derivation. -/
theorem TP_dh_symm : ∀ a b A B, TP.pubOf a = .ok A → TP.pubOf b = .ok B →
    TP.dh a B = TP.dh b A := by
  intro a b A B hA hB
  simp only [TP, Except.ok.injEq] at hA hB
  subst hA hB
  simp [TP, Nat.mul_comm]
  omega

/-- The toy provider's AEAD opens what it sealed. -/
theorem TP_aead_roundtrip : ∀ k n pt ad ct, TP.aead_encrypt k n pt ad = .ok ct →
    TP.aead_decrypt k n ct ad = .ok pt := by
  intro k n pt ad ct h
  simp only [TP, Except.ok.injEq] at h
  subst h
  have hassoc : k ++ n ++ ad ++ pt = (k ++ n ++ ad) ++ pt := by
    simp [List.append_assoc]
  have hlen : (k ++ n ++ ad).length = k.length + n.length + ad.length := by
    simp [List.length_append]
    omega
  simp only [TP, hassoc]
  rw [List.take_left' hlen, List.drop_left' hlen]
  simp

/-- The toy provider's DH and `kdf_rk` never fail. -/
theorem TP_total : (∀ a b, ∃ v, TP.dh a b = .ok v) ∧
    (∀ r d, ∃ v, TP.kdf_rk r d = .ok v) :=
  ⟨fun _ _ => ⟨_, rfl⟩, fun _ _ => ⟨_, rfl⟩⟩

theorem insertAssoc_length_le (m : List (Nat × α)) (k : Nat) (v : α) :
    (insertAssoc m k v).length ≤ m.length + 1 := by
  induction m with
  | nil => simp [insertAssoc]
  | cons hd tl ih =>
    obtain ⟨k', v'⟩ := hd
    by_cases h : k' = k
    · simp [insertAssoc, h]
    · simp [insertAssoc, h]
      omega

theorem lookupRemove_some_length (m : List (Nat × α)) (k : Nat) (v : α)
    (rest : List (Nat × α)) (h : lookupRemove m k = (some v, rest)) :
    rest.length + 1 = m.length := by
  induction m generalizing rest with
  | nil => simp [lookupRemove] at h
  | cons hd tl ih =>
    obtain ⟨k', v'⟩ := hd
    by_cases hk : k' = k
    · simp [lookupRemove, hk] at h
      obtain ⟨-, h⟩ := h
      subst h
      simp
    · simp only [lookupRemove, if_neg hk] at h
      obtain ⟨h1, h2⟩ := Prod.mk.injEq .. ▸ h
      cases hlr : lookupRemove tl k with
      | mk r rest' =>
        rw [hlr] at h1 h2
        simp at h1 h2
        subst h1
        subst h2
        have := ih rest' (by rw [hlr])
        simp [← this]

/-- `perform_dh_ratchet` never touches skipped keys or their timestamps. -/
theorem perform_dh_ratchet_skipped (P : CryptoProvider) (fresh : Bytes × Bytes)
    (s : Session) (r : Bytes) :
    (perform_dh_ratchet P fresh s r).1.skipped_message_keys =
        s.skipped_message_keys ∧
    (perform_dh_ratchet P fresh s r).1.skipped_key_timestamps =
        s.skipped_key_timestamps := by
  obtain ⟨f1, f2⟩ := fresh
  cases hpriv : s.dh_ratchet_private with
  | none => simp [perform_dh_ratchet, hpriv]
  | some k =>
    cases h1 : withErr "DH failed: " (P.dh k r) with
    | error e => simp [perform_dh_ratchet, hpriv, h1]
    | ok d =>
      cases h2 : withErr "KDF_RK failed: " (P.kdf_rk s.root_key d) with
      | error e => simp [perform_dh_ratchet, hpriv, h1, h2]
      | ok rc =>
        obtain ⟨r1, c1⟩ := rc
        cases h3 : withErr "DH failed: " (P.dh f1 r) with
        | error e => simp [perform_dh_ratchet, hpriv, h1, h2, h3]
        | ok d2 =>
          cases h4 : withErr "KDF_RK failed: " (P.kdf_rk r1 d2) with
          | error e => simp [perform_dh_ratchet, hpriv, h1, h2, h3, h4]
          | ok rc2 =>
            obtain ⟨r2, c2⟩ := rc2
            simp [perform_dh_ratchet, hpriv, h1, h2, h3, h4]

/-- A successful `perform_dh_ratchet` resets the receiving counter. -/
theorem perform_dh_ratchet_receiving_reset (P : CryptoProvider)
    (fresh : Bytes × Bytes) (s : Session) (r : Bytes)
    (hok : (perform_dh_ratchet P fresh s r).2 = .ok ()) :
    (perform_dh_ratchet P fresh s r).1.receiving_chain_length = 0 := by
  obtain ⟨f1, f2⟩ := fresh
  cases hpriv : s.dh_ratchet_private with
  | none => simp [perform_dh_ratchet, hpriv] at hok
  | some k =>
    cases h1 : withErr "DH failed: " (P.dh k r) with
    | error e => simp [perform_dh_ratchet, hpriv, h1] at hok
    | ok d =>
      cases h2 : withErr "KDF_RK failed: " (P.kdf_rk s.root_key d) with
      | error e => simp [perform_dh_ratchet, hpriv, h1, h2] at hok
      | ok rc =>
        obtain ⟨r1, c1⟩ := rc
        cases h3 : withErr "DH failed: " (P.dh f1 r) with
        | error e => simp [perform_dh_ratchet, hpriv, h1, h2, h3] at hok
        | ok d2 =>
          cases h4 : withErr "KDF_RK failed: " (P.kdf_rk r1 d2) with
          | error e => simp [perform_dh_ratchet, hpriv, h1, h2, h3, h4] at hok
          | ok rc2 =>
            obtain ⟨r2, c2⟩ := rc2
            simp [perform_dh_ratchet, hpriv, h1, h2, h3, h4]

/-- The symmetric-ratchet loop never reads `previous_chain_length`. -/
theorem decryptLoop_fields (P : CryptoProvider) (now mx : Nat)
    (d : Bytes) (num : Nat) (ct nn : Bytes) (p p' sid : Nat) :
    ∀ fuel s, decryptLoop P now mx ⟨d, num, ct, nn, p, sid⟩ fuel s =
      decryptLoop P now mx ⟨d, num, ct, nn, p', sid⟩ fuel s := by
  intro fuel
  induction fuel with
  | zero => intro s; rfl
  | succ n ih =>
    intro s
    cases hk : withErr "KDF_CK failed: " (P.kdf_ck s.receiving_chain_key) with
    | error e => simp [decryptLoop, hk]
    | ok kv =>
      obtain ⟨mk, nc⟩ := kv
      simp only [decryptLoop, hk]
      split
      · rfl
      · split
        · rfl
        · exact ih _

/-- `decryptTail` never reads `previous_chain_length`. -/
theorem decryptTail_fields (P : CryptoProvider) (now mx : Nat)
    (d : Bytes) (num : Nat) (ct nn : Bytes) (p p' sid : Nat) (s : Session) :
    decryptTail P now mx ⟨d, num, ct, nn, p, sid⟩ s =
      decryptTail P now mx ⟨d, num, ct, nn, p', sid⟩ s := by
  rcases hlr : lookupRemove s.skipped_message_keys num with ⟨o, rest⟩
  cases o with
  | some key => simp [decryptTail, hlr, decrypt_with_key]
  | none => simp [decryptTail, hlr, decryptLoop_fields P now mx d num ct nn p p' sid]

/-- `Session.decrypt` never reads `previous_chain_length`. -/
theorem decrypt_prev (P : CryptoProvider) (fresh : Bytes × Bytes)
    (now mx : Nat) (s : Session) (m : EncryptedRatchetMessage) (plc : Nat) :
    Session.decrypt P fresh now mx s { m with previous_chain_length := plc } =
      Session.decrypt P fresh now mx s m := by
  obtain ⟨d, num, ct, nn, p0, sid⟩ := m
  show Session.decrypt P fresh now mx s ⟨d, num, ct, nn, plc, sid⟩ =
    Session.decrypt P fresh now mx s ⟨d, num, ct, nn, p0, sid⟩
  cases hrat : perform_dh_ratchet P fresh s d with
  | mk s' r =>
    cases hrem : s.remote_dh_public with
    | none =>
      cases r with
      | error e => simp [Session.decrypt, hrem, hrat]
      | ok u =>
        cases u
        simp [Session.decrypt, hrem, hrat,
          decryptTail_fields P now mx d num ct nn plc p0 sid]
    | some c =>
      by_cases hcd : c = d
      · simp [Session.decrypt, hrem, hcd,
          decryptTail_fields P now mx d num ct nn plc p0 sid]
      · cases r with
        | error e => simp [Session.decrypt, hrem, hcd, hrat]
        | ok u =>
          cases u
          simp [Session.decrypt, hrem, hcd, hrat,
            decryptTail_fields P now mx d num ct nn plc p0 sid]

/-! Claim theorems. -/

/-- C3 (code bug): `Client::get_registration_bundle` ignores the client's
KeyManager entirely — its result is the same for any two clients, and at
the concrete client `cC3` (stored identity public key `[1]`) it returns a
bundle whose identity public key is the freshly generated `[2]`. -/
theorem registration_bundle_ignores_key_manager :
    (∀ (P : CryptoProvider) (c c' : Client) (ip sp sg : Bytes × Bytes),
      Client.get_registration_bundle P c ip sp sg =
        Client.get_registration_bundle P c' ip sp sg) ∧
    Client.get_registration_bundle TP cC3 ([2], [2]) ([3], [3]) ([4], [4]) =
      .ok { identity_public := [2], signed_prekey_public := [3],
            signature := [4, 3], verifying_key := [4], suite_id := 1 } ∧
    cC3.key_manager.identity_key = some ([1], [1]) ∧ ([2] : Bytes) ≠ [1] :=
  ⟨fun _ _ _ _ _ _ => rfl, rfl, rfl, by decide⟩

/-- C7 (code bug): with a 32-byte message key and a message whose nonce is
not 12 bytes long, `decrypt_with_key` instantiated with the classic suite
panics in `Nonce::from_slice` (for every underlying ChaCha20-Poly1305
implementation) instead of returning an `InvalidInput`/`DecryptionFailed`
error. -/
theorem decrypt_wrong_nonce_panics :
    ∀ chacha_open,
      decrypt_with_key_classic chacha_open (List.replicate 32 0) mC7 =
        .panicked "GenericArray::from_slice: nonce slice length mismatch" ∧
      mC7.nonce.length = 0 :=
  fun _ => ⟨rfl, rfl⟩

/-- C8: when the bundle signature does not verify, `perform_as_initiator`
fails with the signature-verification error before any DH product or the
root key is computed (the provider's `dh` and `hkdf` are unconstrained),
and no ephemeral key is returned to the caller. -/
theorem invalid_signature_aborts_handshake (P : CryptoProvider)
    (eph : Bytes × Bytes) (local_identity : Bytes)
    (remote_bundle : X3DHPublicKeyBundle) (e : String)
    (hverify : P.verify remote_bundle.verifying_key
        remote_bundle.signed_prekey_public remote_bundle.signature =
          .error e) :
    perform_as_initiator P eph local_identity remote_bundle =
      .error ("Signature verification failed: " ++ e) := by
  unfold perform_as_initiator
  simp only [hverify, withErr]

/-- Witness for C8 at the toy provider and a bundle whose signature is not
`verifying_key ++ signed_prekey_public`. -/
theorem invalid_signature_aborts_handshake_witness :
    TP.verify [4] [2] [3] = .error "signature error" ∧
    perform_as_initiator TP ([9], [9]) [8]
        { identity_public := [1], signed_prekey_public := [2],
          signature := [3], verifying_key := [4], suite_id := 1 } =
      .error ("Signature verification failed: " ++ "signature error") :=
  ⟨rfl, invalid_signature_aborts_handshake TP ([9], [9]) [8] _ _ rfl⟩

/-- C4 (counterexample): at session `s0C4` (receiving counter 0, old remote
DH key `[5]`) and message `mC4` (new DH key `[6]`,
`previous_chain_length = 1`), the claim demands a skipped key stored for
index 0 of the old receiving chain; after `decrypt` the skipped-key map is
empty. -/
theorem dh_ratchet_no_old_chain_keys_cex :
    s0C4.receiving_chain_length = 0 ∧ mC4.previous_chain_length = 1 ∧
    s0C4.remote_dh_public = some [5] ∧ mC4.dh_public_key ≠ [5] ∧
    (Session.decrypt TP ([3], [3]) 0 1000 s0C4 mC4).1.skipped_message_keys =
      [] :=
  ⟨rfl, rfl, rfl, by decide, by decide⟩

/-- C4 (amended): on a changed DH public key, `decrypt` performs the DH
ratchet immediately — `perform_dh_ratchet` stores no skipped keys (it
leaves the skipped maps untouched) and resets the receiving counter — and
`decrypt` never reads `m.previous_chain_length` at all. -/
theorem dh_ratchet_discards_old_chain :
    (∀ (P : CryptoProvider) (fresh : Bytes × Bytes) (s : Session) (r : Bytes),
      (perform_dh_ratchet P fresh s r).1.skipped_message_keys =
          s.skipped_message_keys ∧
      (perform_dh_ratchet P fresh s r).1.skipped_key_timestamps =
          s.skipped_key_timestamps ∧
      ((perform_dh_ratchet P fresh s r).2 = .ok () →
        (perform_dh_ratchet P fresh s r).1.receiving_chain_length = 0)) ∧
    (∀ (P : CryptoProvider) (fresh : Bytes × Bytes) (now mx : Nat)
      (s : Session) (m : EncryptedRatchetMessage) (plc : Nat),
      Session.decrypt P fresh now mx s
          { m with previous_chain_length := plc } =
        Session.decrypt P fresh now mx s m) :=
  ⟨fun P fresh s r => ⟨(perform_dh_ratchet_skipped P fresh s r).1,
      (perform_dh_ratchet_skipped P fresh s r).2,
      perform_dh_ratchet_receiving_reset P fresh s r⟩,
   fun P fresh now mx s m plc => decrypt_prev P fresh now mx s m plc⟩

/-- Witness for C4's amended theorem: concrete DH ratchet step at `s0C4`,
with the inner implication's premise discharged. -/
theorem dh_ratchet_discards_old_chain_witness :
    (perform_dh_ratchet TP ([3], [3]) s0C4 [6]).1.skipped_message_keys =
        s0C4.skipped_message_keys ∧
    (perform_dh_ratchet TP ([3], [3]) s0C4 [6]).2 = .ok () ∧
    (perform_dh_ratchet TP ([3], [3]) s0C4 [6]).1.receiving_chain_length =
        0 ∧
    Session.decrypt TP ([3], [3]) 0 1000 s0C4
        { mC4 with previous_chain_length := 77 } =
      Session.decrypt TP ([3], [3]) 0 1000 s0C4 mC4 :=
  ⟨(dh_ratchet_discards_old_chain.1 TP ([3], [3]) s0C4 [6]).1, rfl,
   (dh_ratchet_discards_old_chain.1 TP ([3], [3]) s0C4 [6]).2.2 rfl,
   dh_ratchet_discards_old_chain.2 TP ([3], [3]) 0 1000 s0C4 mC4 77⟩

/-- C9 (counterexample): the classic suite's `kdf_rk`/`kdf_ck` differ from
the spec-worded versions (info strings "Root-Key-Expansion" /
"Chain-Key-Expansion") under an HKDF that distinguishes info strings. -/
theorem kdf_info_strings_cex :
    ClassicSuite.kdf_rk hkdfLen [] [] ≠ kdf_rk_specWording hkdfLen [] [] ∧
    ClassicSuite.kdf_ck hkdfLen [] ≠ kdf_ck_specWording hkdfLen [] := by
  have h1 : ClassicSuite.kdf_rk hkdfLen [] [] = .ok ([33], []) := rfl
  have h2 : kdf_rk_specWording hkdfLen [] [] = .ok ([18], []) := rfl
  have h3 : ClassicSuite.kdf_ck hkdfLen [] = .ok ([34], []) := rfl
  have h4 : kdf_ck_specWording hkdfLen [] = .ok ([19], []) := rfl
  rw [h1, h2, h3, h4]
  refine ⟨by simp, by simp⟩

/-- C9 (amended): `kdf_rk` is HKDF with the root key as salt and the DH
output as IKM under the info string "Double-Ratchet-Root-Key-Expansion",
and `kdf_ck` is HKDF with the chain key as salt and empty IKM under
"Double-Ratchet-Chain-Key-Expansion"; both request 64 bytes and split them
into two 32-byte halves. -/
theorem kdf_rk_ck_structure :
    (∀ (hkdf : Bytes → Bytes → Bytes → Nat → Except String Bytes)
      (root dh out : Bytes),
      hkdf root dh (strBytes "Double-Ratchet-Root-Key-Expansion") 64 =
          .ok out →
      out.length = 64 →
      ClassicSuite.kdf_rk hkdf root dh = .ok (out.take 32, out.drop 32) ∧
      (out.take 32).length = 32 ∧ (out.drop 32).length = 32) ∧
    (∀ (hkdf : Bytes → Bytes → Bytes → Nat → Except String Bytes)
      (chain out : Bytes),
      hkdf chain [] (strBytes "Double-Ratchet-Chain-Key-Expansion") 64 =
          .ok out →
      out.length = 64 →
      ClassicSuite.kdf_ck hkdf chain = .ok (out.take 32, out.drop 32) ∧
      (out.take 32).length = 32 ∧ (out.drop 32).length = 32) := by
  refine ⟨fun hkdf root dh out h hlen => ?_, fun hkdf chain out h hlen => ?_⟩
  · exact ⟨by simp [ClassicSuite.kdf_rk, h, withErr],
      by simp [hlen], by simp [hlen]⟩
  · exact ⟨by simp [ClassicSuite.kdf_ck, h, withErr],
      by simp [hlen], by simp [hlen]⟩

/-- Witness for C9's amended theorem at the toy HKDF `hkdf64`. -/
theorem kdf_rk_ck_structure_witness :
    ClassicSuite.kdf_rk hkdf64 [1] [2] =
      .ok ((List.replicate 64 3).take 32, (List.replicate 64 3).drop 32) ∧
    ClassicSuite.kdf_ck hkdf64 [5] =
      .ok ((List.replicate 64 5).take 32, (List.replicate 64 5).drop 32) :=
  ⟨(kdf_rk_ck_structure.1 hkdf64 [1] [2] _ rfl (by simp)).1,
   (kdf_rk_ck_structure.2 hkdf64 [5] _ rfl (by simp)).1⟩

/-- C5 (counterexample): a skipped key cached while receiving under remote
DH key `[5]` is consumed by — and successfully decrypts — a message with
the same message number 1 from a different chain (`dh_public_key = [6,6]`):
the cache is keyed by message number alone. -/
theorem skipped_key_cross_chain_cex :
    s0C5.remote_dh_public = some [5] ∧
    s0C5.skipped_message_keys = [(1, [9])] ∧
    mC5.dh_public_key ≠ [5] ∧ mC5.message_number = 1 ∧
    (Session.decrypt TP ([3], [3]) 0 1000 s0C5 mC5).2 = .ok [42] ∧
    (Session.decrypt TP ([3], [3]) 0 1000 s0C5 mC5).1.skipped_message_keys =
      [] :=
  ⟨rfl, rfl, by decide, rfl, rfl, by decide⟩

/-- C5 (amended): after the DH ratchet step triggered by a changed
`dh_public`, the skipped-key lookup is by `message_number` alone: whatever
entry the (ratchet-preserved) map holds under that number — regardless of
the chain it was stored for — is removed and used to decrypt the message. -/
theorem skipped_lookup_ignores_dh_public (P : CryptoProvider)
    (fresh : Bytes × Bytes) (now mx : Nat) (s s' : Session)
    (m : EncryptedRatchetMessage) (key : Bytes) (rest : List (Nat × Bytes))
    (r : Bytes)
    (hremote : s.remote_dh_public = some r)
    (hne : r ≠ m.dh_public_key)
    (hrat : perform_dh_ratchet P fresh s m.dh_public_key = (s', .ok ()))
    (hlk : lookupRemove s'.skipped_message_keys m.message_number =
      (some key, rest)) :
    Session.decrypt P fresh now mx s m =
      ({ s' with skipped_message_keys := rest },
        decrypt_with_key P key m) := by
  simp only [Session.decrypt, hremote, ne_eq, hne, not_false_eq_true,
    decide_True, if_true, hrat, decryptTail, hlk]

/-- Witness for C5's amended theorem at the concrete cross-chain input. -/
theorem skipped_lookup_ignores_dh_public_witness :
    ∃ s', perform_dh_ratchet TP ([3], [3]) s0C5 mC5.dh_public_key =
        (s', .ok ()) ∧
      Session.decrypt TP ([3], [3]) 0 1000 s0C5 mC5 =
        ({ s' with skipped_message_keys := [] },
          decrypt_with_key TP [9] mC5) :=
  ⟨_, rfl, skipped_lookup_ignores_dh_public TP ([3], [3]) 0 1000 s0C5 _
    mC5 [9] [] [5] rfl (by decide) rfl rfl⟩

/-- C6 (counterexample): with `max_skipped_messages = 0`, decrypting
message number 1 yields the `TooManySkipped` error, but the stored
skipped-key count ends at 1 (exceeding the cap) and the receiving counter
has advanced from 0 to 1: the failing decrypt does advance state. -/
theorem too_many_skipped_advances_state_cex :
    (Session.decrypt TP ([3], [3]) 0 0 s0C6 mC6).2 =
      .error "Too many skipped messages" ∧
    (Session.decrypt TP ([3], [3]) 0 0 s0C6 mC6).1.skipped_message_keys.length
      = 1 ∧
    s0C6.skipped_message_keys.length = 0 ∧
    (Session.decrypt TP ([3], [3]) 0 0 s0C6 mC6).1.receiving_chain_length
      = 1 ∧
    s0C6.receiving_chain_length = 0 :=
  ⟨rfl, by decide, rfl, by decide, rfl⟩

/-- The symmetric-ratchet loop keeps the skipped-key count at most one
above the cap, and exceeding the cap is exactly the `TooManySkipped`
rejection, with the receiving counter already advanced. -/
theorem decryptLoop_skipped_bound (P : CryptoProvider) (now mx : Nat)
    (m : EncryptedRatchetMessage) :
    ∀ fuel s, s.skipped_message_keys.length ≤ mx →
      (decryptLoop P now mx m fuel s).1.skipped_message_keys.length
          ≤ mx + 1 ∧
      (mx < (decryptLoop P now mx m fuel s).1.skipped_message_keys.length →
        (decryptLoop P now mx m fuel s).2 =
            .error "Too many skipped messages" ∧
        (decryptLoop P now mx m fuel s).1.skipped_message_keys.length =
            mx + 1 ∧
        0 < (decryptLoop P now mx m fuel s).1.receiving_chain_length) := by
  intro fuel
  induction fuel with
  | zero =>
    intro s h
    refine ⟨by simpa [decryptLoop] using Nat.le_succ_of_le h, ?_⟩
    intro hlt
    simp [decryptLoop] at hlt
    omega
  | succ n ih =>
    intro s h
    cases hk : withErr "KDF_CK failed: " (P.kdf_ck s.receiving_chain_key) with
    | error e =>
      refine ⟨by simpa [decryptLoop, hk] using Nat.le_succ_of_le h, ?_⟩
      intro hlt
      simp [decryptLoop, hk] at hlt
      omega
    | ok kv =>
      obtain ⟨mk', nc⟩ := kv
      simp only [decryptLoop, hk]
      split
      · refine ⟨by simpa using Nat.le_succ_of_le h, ?_⟩
        intro hlt
        simp at hlt
        omega
      · have hins := insertAssoc_length_le s.skipped_message_keys
          s.receiving_chain_length mk'
        split
        · rename_i hgt
          refine ⟨by simpa using by omega, ?_⟩
          intro hlt
          refine ⟨rfl, by simpa using by omega, by simp⟩
        · rename_i hle
          exact ih _ (by simpa using by omega)

/-- `decryptTail` obeys the same skipped-key count bound. -/
theorem decryptTail_skipped_bound (P : CryptoProvider) (now mx : Nat)
    (m : EncryptedRatchetMessage) (s : Session)
    (h : s.skipped_message_keys.length ≤ mx) :
    (decryptTail P now mx m s).1.skipped_message_keys.length ≤ mx + 1 ∧
    (mx < (decryptTail P now mx m s).1.skipped_message_keys.length →
      (decryptTail P now mx m s).2 = .error "Too many skipped messages" ∧
      (decryptTail P now mx m s).1.skipped_message_keys.length = mx + 1 ∧
      0 < (decryptTail P now mx m s).1.receiving_chain_length) := by
  rcases hlr : lookupRemove s.skipped_message_keys m.message_number
    with ⟨o, rest⟩
  cases o with
  | some key =>
    have := lookupRemove_some_length s.skipped_message_keys m.message_number
      key rest hlr
    refine ⟨by simpa [decryptTail, hlr] using by omega, ?_⟩
    intro hlt
    simp [decryptTail, hlr] at hlt
    omega
  | none =>
    simpa [decryptTail, hlr] using
      decryptLoop_skipped_bound P now mx m
        (m.message_number + 1 - s.receiving_chain_length) s h

/-- C6 (amended): starting from a session within the cap, `decrypt` keeps
the stored skipped-key count at most `max_skipped + 1`; whenever the cap is
exceeded, the result is exactly the `TooManySkipped` rejection, the count
is exactly `max_skipped + 1` (the inserted keys are kept), and the
receiving counter has advanced. -/
theorem skipped_count_bound (P : CryptoProvider) (fresh : Bytes × Bytes)
    (now mx : Nat) (s : Session) (m : EncryptedRatchetMessage)
    (h : s.skipped_message_keys.length ≤ mx) :
    (Session.decrypt P fresh now mx s m).1.skipped_message_keys.length
        ≤ mx + 1 ∧
    (mx < (Session.decrypt P fresh now mx s m).1.skipped_message_keys.length →
      (Session.decrypt P fresh now mx s m).2 =
          .error "Too many skipped messages" ∧
      (Session.decrypt P fresh now mx s m).1.skipped_message_keys.length =
          mx + 1 ∧
      0 < (Session.decrypt P fresh now mx s m).1.receiving_chain_length) := by
  cases hrat : perform_dh_ratchet P fresh s m.dh_public_key with
  | mk s' r =>
    have hsk : s'.skipped_message_keys = s.skipped_message_keys := by
      have := (perform_dh_ratchet_skipped P fresh s m.dh_public_key).1
      rw [hrat] at this
      exact this
    cases hrem : s.remote_dh_public with
    | none =>
      cases r with
      | error e =>
        have hd : Session.decrypt P fresh now mx s m = (s', .error e) := by
          simp [Session.decrypt, hrem, hrat]
        rw [hd]
        refine ⟨by simp [hsk]; omega, ?_⟩
        intro hlt
        simp [hsk] at hlt
        omega
      | ok u =>
        cases u
        have hd : Session.decrypt P fresh now mx s m =
            decryptTail P now mx m s' := by
          simp [Session.decrypt, hrem, hrat]
        rw [hd]
        exact decryptTail_skipped_bound P now mx m s' (by rw [hsk]; exact h)
    | some c =>
      by_cases hcd : c = m.dh_public_key
      · have hd : Session.decrypt P fresh now mx s m =
            decryptTail P now mx m s := by
          simp [Session.decrypt, hrem, hcd]
        rw [hd]
        exact decryptTail_skipped_bound P now mx m s h
      · cases r with
        | error e =>
          have hd : Session.decrypt P fresh now mx s m = (s', .error e) := by
            simp [Session.decrypt, hrem, hcd, hrat]
          rw [hd]
          refine ⟨by simp [hsk]; omega, ?_⟩
          intro hlt
          simp [hsk] at hlt
          omega
        | ok u =>
          cases u
          have hd : Session.decrypt P fresh now mx s m =
              decryptTail P now mx m s' := by
            simp [Session.decrypt, hrem, hcd, hrat]
          rw [hd]
          exact decryptTail_skipped_bound P now mx m s' (by rw [hsk]; exact h)

/-- Witness for C6's amended theorem at `max_skipped = 0` and message
number 1, where the cap is in fact exceeded. -/
theorem skipped_count_bound_witness :
    s0C6.skipped_message_keys.length ≤ 0 ∧
    (Session.decrypt TP ([3], [3]) 0 0 s0C6 mC6).1.skipped_message_keys.length
        ≤ 0 + 1 ∧
    ((0 : Nat) <
        (Session.decrypt TP ([3], [3]) 0 0
          s0C6 mC6).1.skipped_message_keys.length →
      (Session.decrypt TP ([3], [3]) 0 0 s0C6 mC6).2 =
          .error "Too many skipped messages" ∧
      (Session.decrypt TP ([3], [3]) 0 0
          s0C6 mC6).1.skipped_message_keys.length = 0 + 1 ∧
      0 < (Session.decrypt TP ([3], [3]) 0 0
          s0C6 mC6).1.receiving_chain_length) :=
  ⟨by decide, (skipped_count_bound TP ([3], [3]) 0 0 s0C6 mC6 (by decide)).1,
   (skipped_count_bound TP ([3], [3]) 0 0 s0C6 mC6 (by decide)).2⟩

/-- C1: for every provider whose DH is symmetric, the root key computed by
`perform_as_initiator` from Alice's identity private key and Bob's bundle
equals the root key computed by `perform_as_responder` from Bob's private
keys, Alice's identity public key and the public half of the ephemeral key
generated by the initiator. -/
theorem x3dh_root_key_agreement (P : CryptoProvider)
    (alice_identity_priv alice_identity_pub bob_identity_priv
      bob_identity_pub spk_priv spk_pub eph_priv eph_pub sig vk : Bytes)
    (sid : Nat) (root : Bytes) (st : InitiatorState)
    (hsym : ∀ a b A B, P.pubOf a = .ok A → P.pubOf b = .ok B →
      P.dh a B = P.dh b A)
    (hpubA : P.pubOf alice_identity_priv = .ok alice_identity_pub)
    (hpubB : P.pubOf bob_identity_priv = .ok bob_identity_pub)
    (hpubS : P.pubOf spk_priv = .ok spk_pub)
    (hpubE : P.pubOf eph_priv = .ok eph_pub)
    (hinit : perform_as_initiator P (eph_priv, eph_pub) alice_identity_priv
        { identity_public := bob_identity_pub,
          signed_prekey_public := spk_pub, signature := sig,
          verifying_key := vk, suite_id := sid } = .ok (root, st)) :
    perform_as_responder P bob_identity_priv spk_priv alice_identity_pub
      eph_pub = .ok root := by
  have e1 : P.dh spk_priv alice_identity_pub =
      P.dh alice_identity_priv spk_pub := hsym _ _ _ _ hpubS hpubA
  have e2 : P.dh bob_identity_priv eph_pub =
      P.dh eph_priv bob_identity_pub := hsym _ _ _ _ hpubB hpubE
  have e3 : P.dh spk_priv eph_pub = P.dh eph_priv spk_pub :=
    hsym _ _ _ _ hpubS hpubE
  unfold perform_as_initiator at hinit
  simp only at hinit
  cases hver : withErr "Signature verification failed: "
      (P.verify vk spk_pub sig) with
  | error e =>
    simp only [hver] at hinit
    exact Except.noConfusion hinit
  | ok u =>
    cases u
    cases hdh1 : withErr "DH1 failed: " (P.dh alice_identity_priv spk_pub)
      with
    | error e =>
      simp only [hver, hdh1] at hinit
      exact Except.noConfusion hinit
    | ok dh1 =>
      cases hdh2 : withErr "DH2 failed: " (P.dh eph_priv bob_identity_pub)
        with
      | error e =>
        simp only [hver, hdh1, hdh2] at hinit
        exact Except.noConfusion hinit
      | ok dh2 =>
        cases hdh3 : withErr "DH3 failed: " (P.dh eph_priv spk_pub) with
        | error e =>
          simp only [hver, hdh1, hdh2, hdh3] at hinit
          exact Except.noConfusion hinit
        | ok dh3 =>
          cases hk : withErr "HKDF derivation failed: "
              (P.hkdf [] (dh1 ++ dh2 ++ dh3) (strBytes "X3DH Root Key") 32)
            with
          | error e =>
            simp only [hver, hdh1, hdh2, hdh3, hk] at hinit
            exact Except.noConfusion hinit
          | ok rk =>
            simp only [hver, hdh1, hdh2, hdh3, hk, Except.ok.injEq,
              Prod.mk.injEq] at hinit
            unfold perform_as_responder
            rw [e1, e2, e3, hdh1, hdh2, hdh3]
            simp only [List.append_assoc] at hk
            simp [hk, hinit.1]

/-- Witness for C1 at the toy provider (its `pubOf` is the identity, so
public halves coincide with the private keys). -/
theorem x3dh_root_key_agreement_witness :
    ∃ root st, perform_as_initiator TP ([1], [1]) [7]
        { identity_public := [2], signed_prekey_public := [5],
          signature := [6, 5], verifying_key := [6], suite_id := 1 } =
      .ok (root, st) ∧
    perform_as_responder TP [2] [5] [7] [1] = .ok root :=
  ⟨_, _, rfl, x3dh_root_key_agreement TP [7] [7] [2] [2] [5] [5] [1] [1]
    [6, 5] [6] 1 _ _ TP_dh_symm rfl rfl rfl rfl rfl⟩

/-- C2: for sessions correctly initialised as initiator (from a handshake
root key) and responder (from the equal root key and the initiator's first
ciphertext), under a provider with symmetric DH and a round-tripping AEAD,
the responder's construction decrypts the first message to its plaintext,
and any message the responder then encrypts decrypts to its plaintext at
the initiator. -/
theorem double_ratchet_roundtrip (P : CryptoProvider)
    (root bobPriv bobPub ePriv gPriv gPub a2Priv a2Pub n1 n2 p1 p2 : Bytes)
    (suite_cfg now mx : Nat) (cidA cidB : String)
    (sA sA2 : Session) (m1 : EncryptedRatchetMessage)
    (hsym : ∀ a b A B, P.pubOf a = .ok A → P.pubOf b = .ok B →
      P.dh a B = P.dh b A)
    (haead : ∀ k n pt ad ct, P.aead_encrypt k n pt ad = .ok ct →
      P.aead_decrypt k n ct ad = .ok pt)
    (hdhT : ∀ a b, ∃ v, P.dh a b = .ok v)
    (hrkT : ∀ r d, ∃ v, P.kdf_rk r d = .ok v)
    (hpubB : P.pubOf bobPriv = .ok bobPub)
    (hpubG : P.pubOf gPriv = .ok gPub)
    (hne : gPub ≠ bobPub)
    (hA : new_initiator_session P suite_cfg root
      { ephemeral_private := ePriv } bobPub cidA = .ok sA)
    (hE1 : Session.encrypt P n1 sA p1 = (sA2, .ok m1)) :
    ∃ sB, new_responder_session P (gPriv, gPub) now mx root bobPriv m1 cidB
        = .ok (sB, p1) ∧
      ∀ sB2 m2, Session.encrypt P n2 sB p2 = (sB2, .ok m2) →
        (Session.decrypt P (a2Priv, a2Pub) now mx sA2 m2).2 = .ok p2 := by
  unfold new_initiator_session at hA
  simp only at hA
  cases hhk : withErr "Failed to derive root key: "
      (P.hkdf [] root (strBytes "InitialRootKey") 32) with
  | error e =>
    simp only [hhk] at hA
    exact Except.noConfusion hA
  | ok rv =>
  cases hpe : withErr "Failed to derive public key: " (P.pubOf ePriv) with
  | error e =>
    simp only [hhk, hpe] at hA
    exact Except.noConfusion hA
  | ok ePub =>
  cases hd1 : withErr "Failed to perform DH: " (P.dh ePriv bobPub) with
  | error e =>
    simp only [hhk, hpe, hd1] at hA
    exact Except.noConfusion hA
  | ok d1 =>
  cases hrk1 : withErr "KDF_RK failed: " (P.kdf_rk rv d1) with
  | error e =>
    simp only [hhk, hpe, hd1, hrk1] at hA
    exact Except.noConfusion hA
  | ok rc1 =>
  obtain ⟨r1, c1⟩ := rc1
  simp only [hhk, hpe, hd1, hrk1, Except.ok.injEq] at hA
  subst hA
  unfold Session.encrypt at hE1
  simp only at hE1
  cases hck1 : withErr "KDF (CK) failed: " (P.kdf_ck c1) with
  | error e =>
    simp only [hck1, Prod.mk.injEq] at hE1
    exact Except.noConfusion hE1.2
  | ok mc1 =>
  obtain ⟨mk1, c1'⟩ := mc1
  simp only [hck1] at hE1
  by_cases hlenE : ePub.length = 32
  case neg =>
    rw [if_neg hlenE] at hE1
    simp only [Prod.mk.injEq] at hE1
    exact Except.noConfusion hE1.2
  case pos =>
  rw [if_pos hlenE] at hE1
  cases henc1 : withErr "Encryption failed: "
      (P.aead_encrypt mk1 n1 p1 (ePub ++ be32 0)) with
  | error e =>
    simp only [henc1, Prod.mk.injEq] at hE1
    exact Except.noConfusion hE1.2
  | ok ct1 =>
  simp only [henc1, Prod.mk.injEq, Except.ok.injEq] at hE1
  obtain ⟨hsA2, hm1⟩ := hE1
  subst hsA2
  subst hm1
  obtain ⟨d2, hd2⟩ := hdhT gPriv ePub
  obtain ⟨rc2, hrk2⟩ := hrkT r1 d2
  obtain ⟨r2, c2⟩ := rc2
  obtain ⟨d3, hd3⟩ := hdhT a2Priv gPub
  obtain ⟨rc3, hrk3⟩ := hrkT r2 d3
  obtain ⟨r3, c3⟩ := rc3
  have hpeRaw : P.pubOf ePriv = .ok ePub := withErr_ok_iff.mp hpe
  have hck1Raw : P.kdf_ck c1 = .ok (mk1, c1') := withErr_ok_iff.mp hck1
  have hck1w : withErr "KDF_CK failed: " (P.kdf_ck c1) = .ok (mk1, c1') :=
    withErr_ok_iff.mpr hck1Raw
  have hencRaw : P.aead_encrypt mk1 n1 p1 (ePub ++ be32 0) = .ok ct1 :=
    withErr_ok_iff.mp henc1
  have hdec1w : withErr "Decryption failed: "
      (P.aead_decrypt mk1 n1 ct1 (ePub ++ be32 0)) = .ok p1 :=
    withErr_ok_iff.mpr (haead _ _ _ _ _ hencRaw)
  have hbobdh : P.dh bobPriv ePub = P.dh ePriv bobPub :=
    hsym _ _ _ _ hpubB hpeRaw
  have hd1w : withErr "Failed to perform DH: " (P.dh bobPriv ePub) =
      .ok d1 := by rw [hbobdh]; exact hd1
  have hd2w : withErr "Failed to perform DH: " (P.dh gPriv ePub) =
      .ok d2 := withErr_ok_iff.mpr hd2
  have hrk2w : withErr "KDF_RK failed: " (P.kdf_rk r1 d2) = .ok (r2, c2) :=
    withErr_ok_iff.mpr hrk2
  refine ⟨({ suite_id := suite_cfg, root_key := r2, sending_chain_key := c2,
             sending_chain_length := 0, receiving_chain_key := c1',
             receiving_chain_length := 1, dh_ratchet_private := some gPriv,
             dh_ratchet_public := gPub, remote_dh_public := some ePub,
             previous_sending_length := 0, skipped_message_keys := [],
             skipped_key_timestamps := [], session_id := "",
             contact_id := cidB } : Session), ?_, ?_⟩
  · unfold new_responder_session
    simp only [hhk, hd1w, hrk1, hd2w, hrk2w]
    simp only [Session.decrypt, decryptTail, decryptLoop, decrypt_with_key,
      lookupRemove, hck1w, hdec1w, ne_eq, not_true_eq_false, decide_False,
      Bool.false_eq_true, if_false]
    simp
  · intro sB2 m2 hE2
    unfold Session.encrypt at hE2
    simp only at hE2
    cases hck2 : withErr "KDF (CK) failed: " (P.kdf_ck c2) with
    | error e =>
      simp only [hck2, Prod.mk.injEq] at hE2
      exact Except.noConfusion hE2.2
    | ok mc2 =>
    obtain ⟨mk2, c2'⟩ := mc2
    simp only [hck2] at hE2
    by_cases hlenG : gPub.length = 32
    case neg =>
      rw [if_neg hlenG] at hE2
      simp only [Prod.mk.injEq] at hE2
      exact Except.noConfusion hE2.2
    case pos =>
    rw [if_pos hlenG] at hE2
    cases henc2 : withErr "Encryption failed: "
        (P.aead_encrypt mk2 n2 p2 (gPub ++ be32 0)) with
    | error e =>
      simp only [henc2, Prod.mk.injEq] at hE2
      exact Except.noConfusion hE2.2
    | ok ct2 =>
    simp only [henc2, Prod.mk.injEq, Except.ok.injEq] at hE2
    obtain ⟨hsB2, hm2⟩ := hE2
    subst hsB2
    subst hm2
    have hck2Raw : P.kdf_ck c2 = .ok (mk2, c2') := withErr_ok_iff.mp hck2
    have hck2w : withErr "KDF_CK failed: " (P.kdf_ck c2) = .ok (mk2, c2') :=
      withErr_ok_iff.mpr hck2Raw
    have henc2Raw : P.aead_encrypt mk2 n2 p2 (gPub ++ be32 0) = .ok ct2 :=
      withErr_ok_iff.mp henc2
    have hdec2w : withErr "Decryption failed: "
        (P.aead_decrypt mk2 n2 ct2 (gPub ++ be32 0)) = .ok p2 :=
      withErr_ok_iff.mpr (haead _ _ _ _ _ henc2Raw)
    have halicedh : P.dh ePriv gPub = P.dh gPriv ePub :=
      hsym _ _ _ _ hpeRaw hpubG
    have hd2w' : withErr "DH failed: " (P.dh ePriv gPub) = .ok d2 := by
      rw [halicedh]
      exact withErr_ok_iff.mpr hd2
    have hrk2w' : withErr "KDF_RK failed: " (P.kdf_rk r1 d2) =
        .ok (r2, c2) := withErr_ok_iff.mpr hrk2
    have hd3w : withErr "DH failed: " (P.dh a2Priv gPub) = .ok d3 :=
      withErr_ok_iff.mpr hd3
    have hrk3w : withErr "KDF_RK failed: " (P.kdf_rk r2 d3) = .ok (r3, c3) :=
      withErr_ok_iff.mpr hrk3
    have hneB : (bobPub = gPub) = False :=
      eq_false (fun h : bobPub = gPub => hne h.symm)
    simp only [Session.decrypt, perform_dh_ratchet, decryptTail,
      decryptLoop, decrypt_with_key, lookupRemove, hd2w', hrk2w', hd3w,
      hrk3w, hck2w, hdec2w, hneB, ne_eq, not_false_eq_true, decide_True,
      if_true]

/-- Witness for C2: a concrete two-turn exchange over the toy provider
(32-byte keys, since `encrypt` checks the DH public key length). -/
theorem double_ratchet_roundtrip_witness :
    ∃ sA sA2 m1,
      new_initiator_session TP 1 [0]
          { ephemeral_private := List.replicate 32 1 }
          (List.replicate 32 2) "bob" = .ok sA ∧
      Session.encrypt TP [13] sA [40, 41] = (sA2, .ok m1) ∧
      ∃ sB, new_responder_session TP
            (List.replicate 32 3, List.replicate 32 3) 0 1000 [0]
            (List.replicate 32 2) m1 "alice" = .ok (sB, [40, 41]) ∧
        ∀ sB2 m2, Session.encrypt TP [14] sB [50, 51] = (sB2, .ok m2) →
          (Session.decrypt TP (List.replicate 32 4, List.replicate 32 4) 0
            1000 sA2 m2).2 = .ok [50, 51] :=
  ⟨_, _, _, rfl, rfl,
    double_ratchet_roundtrip TP [0] (List.replicate 32 2)
      (List.replicate 32 2) (List.replicate 32 1) (List.replicate 32 3)
      (List.replicate 32 3) (List.replicate 32 4) (List.replicate 32 4)
      [13] [14] [40, 41] [50, 51] 1 0 1000 "bob" "alice" _ _ _
      TP_dh_symm TP_aead_roundtrip TP_total.1 TP_total.2 rfl rfl
      (by decide) rfl rfl⟩

/-- The toy GCM opens what it sealed. -/
theorem gcmT_roundtrip : ∀ k n d ct, gcmSealT k n d = .ok ct →
    gcmOpenT k n ct = .ok d := by
  intro k n d ct h
  simp only [gcmSealT, Except.ok.injEq] at h
  subst h
  have hlen : (k ++ n).length = k.length + n.length := by
    simp [List.length_append]
  simp only [gcmOpenT]
  have hc : 1 + k.length + n.length = (k.length + n.length) + 1 := by omega
  rw [hc]
  simp only [List.cons_append, List.take_succ_cons, List.drop_succ_cons]
  rw [List.take_left' hlen, List.drop_left' hlen]
  simp

/-- The toy GCM rejects every key other than the sealing key. -/
theorem gcmT_reject : ∀ k k' n d ct, k' ≠ k → gcmSealT k n d = .ok ct →
    ∃ e, gcmOpenT k' n ct = .error e := by
  intro k k' n d ct hk h
  simp only [gcmSealT, Except.ok.injEq] at h
  subst h
  refine ⟨"aead::Error", ?_⟩
  rw [gcmOpenT, if_neg ?_]
  intro hEq
  have hc : 1 + k'.length + n.length = (k'.length + n.length) + 1 := by
    omega
  rw [hc] at hEq
  simp only [List.cons_append, List.take_succ_cons, List.cons.injEq] at hEq
  obtain ⟨hhead, htail⟩ := hEq
  have hlen : (k ++ n).length = k'.length + n.length := by
    simp [List.length_append, hhead]
  rw [List.take_left' hlen] at htail
  exact hk (List.append_cancel_right htail).symm

/-- C10: the record produced by `encrypt_private_keys` decrypts back to the
original keys under the same master key (the nonce-header framing, the
splits and the 32-byte length checks all round-trip), and under a master
key derived from a different password — whenever PBKDF2 separates the two
passwords — `decrypt_private_keys` fails with the AEAD error
(`InvalidPassword` kind) rather than returning wrong key bytes. -/
theorem seal_unseal_roundtrip
    (gcm_seal gcm_open : Bytes → Bytes → Bytes → Except String Bytes)
    (pbkdf2 : String → Bytes → Nat → Bytes) (password password' : String)
    (keys : PrivateKeys) (mk mk' salt n_id n_pk n_sk psig : Bytes)
    (uid : String) (ts : Nat) (stored : StoredPrivateKeys)
    (_hmk : derive_master_key pbkdf2 Config.default password salt = .ok mk)
    (_hmk' : derive_master_key pbkdf2 Config.default password' salt =
      .ok mk')
    (hne : mk' ≠ mk)
    (hlen_id : keys.identity_secret.length = 32)
    (hlen_sk : keys.signing_key.length = 32)
    (hlen_pk : keys.signed_prekey_secret.length = 32)
    (hn_id : n_id.length = 12) (hn_pk : n_pk.length = 12)
    (hn_sk : n_sk.length = 12)
    (henc : encrypt_private_keys gcm_seal n_id n_pk n_sk keys mk salt uid
      psig ts = .ok stored)
    (hopen : ∀ n data ct, gcm_seal mk n data = .ok ct →
      gcm_open mk n ct = .ok data)
    (hreject : ∀ k n data ct, k ≠ mk → gcm_seal mk n data = .ok ct →
      ∃ e, gcm_open k n ct = .error e) :
    decrypt_private_keys gcm_open Config.default stored mk = .ok keys ∧
    ∃ e, decrypt_private_keys gcm_open Config.default stored mk' =
      .error e := by
  obtain ⟨ki, ks, kp⟩ := keys
  simp only at hlen_id hlen_sk hlen_pk
  unfold encrypt_private_keys encrypt_data at henc
  cases hs1 : withErr "Encryption failed: " (gcm_seal mk n_id ki) with
  | error e =>
    simp only [hs1] at henc
    exact Except.noConfusion henc
  | ok ct1 =>
  cases hs2 : withErr "Encryption failed: " (gcm_seal mk n_pk kp) with
  | error e =>
    simp only [hs1, hs2] at henc
    exact Except.noConfusion henc
  | ok ct2 =>
  cases hs3 : withErr "Encryption failed: " (gcm_seal mk n_sk ks) with
  | error e =>
    simp only [hs1, hs2, hs3] at henc
    exact Except.noConfusion henc
  | ok ct3 =>
  simp only [hs1, hs2, hs3, Except.ok.injEq] at henc
  subst henc
  have raw1 : gcm_seal mk n_id ki = .ok ct1 := withErr_ok_iff.mp hs1
  have raw2 : gcm_seal mk n_pk kp = .ok ct2 := withErr_ok_iff.mp hs2
  have raw3 : gcm_seal mk n_sk ks = .ok ct3 := withErr_ok_iff.mp hs3
  have hcut : ∀ (n ct : Bytes), n.length = 12 →
      (¬ (n ++ ct).length < Config.default.nonce_length) ∧
      (n ++ ct).take Config.default.nonce_length = n ∧
      (n ++ ct).drop Config.default.nonce_length = ct := by
    intro n ct hn
    refine ⟨?_, ?_, ?_⟩
    · show ¬ (n ++ ct).length < 12
      simp only [List.length_append, hn]
      omega
    · exact List.take_left' hn
    · exact List.drop_left' hn
  constructor
  · have hd1 : decrypt_data gcm_open Config.default mk (n_id ++ ct1) =
        .ok ki := by
      unfold decrypt_data
      rw [if_neg (hcut n_id ct1 hn_id).1, (hcut n_id ct1 hn_id).2.1,
        (hcut n_id ct1 hn_id).2.2]
      exact withErr_ok_iff.mpr (hopen _ _ _ raw1)
    have hd2 : decrypt_data gcm_open Config.default mk (n_pk ++ ct2) =
        .ok kp := by
      unfold decrypt_data
      rw [if_neg (hcut n_pk ct2 hn_pk).1, (hcut n_pk ct2 hn_pk).2.1,
        (hcut n_pk ct2 hn_pk).2.2]
      exact withErr_ok_iff.mpr (hopen _ _ _ raw2)
    have hd3 : decrypt_data gcm_open Config.default mk (n_sk ++ ct3) =
        .ok ks := by
      unfold decrypt_data
      rw [if_neg (hcut n_sk ct3 hn_sk).1, (hcut n_sk ct3 hn_sk).2.1,
        (hcut n_sk ct3 hn_sk).2.2]
      exact withErr_ok_iff.mpr (hopen _ _ _ raw3)
    unfold decrypt_private_keys
    simp [hd1, hd2, hd3, to_array_32, hlen_id, hlen_sk, hlen_pk]
  · obtain ⟨e1, he1⟩ := hreject mk' n_id ki ct1 hne raw1
    refine ⟨"Decryption failed: " ++ e1, ?_⟩
    have hd1' : decrypt_data gcm_open Config.default mk' (n_id ++ ct1) =
        .error ("Decryption failed: " ++ e1) := by
      unfold decrypt_data
      rw [if_neg (hcut n_id ct1 hn_id).1, (hcut n_id ct1 hn_id).2.1,
        (hcut n_id ct1 hn_id).2.2]
      simp [withErr, he1]
    unfold decrypt_private_keys
    simp only [hd1']

/-- Witness for C10: toy PBKDF2/AES-GCM, passwords "Password123" and
"Password124", three concrete 32-byte keys and 12-byte nonces. -/
theorem seal_unseal_roundtrip_witness :
    ∃ mk mk' stored,
      derive_master_key pbkdf2T Config.default "Password123"
          (List.replicate 32 0) = .ok mk ∧
      derive_master_key pbkdf2T Config.default "Password124"
          (List.replicate 32 0) = .ok mk' ∧
      encrypt_private_keys gcmSealT (List.replicate 12 5)
          (List.replicate 12 6) (List.replicate 12 7)
          { identity_secret := List.replicate 32 1,
            signing_key := List.replicate 32 2,
            signed_prekey_secret := List.replicate 32 3 } mk
          (List.replicate 32 0) "user123" (List.replicate 64 4) 0 =
        .ok stored ∧
      decrypt_private_keys gcmOpenT Config.default stored mk =
        .ok { identity_secret := List.replicate 32 1,
              signing_key := List.replicate 32 2,
              signed_prekey_secret := List.replicate 32 3 } ∧
      ∃ e, decrypt_private_keys gcmOpenT Config.default stored mk' =
        .error e :=
  ⟨_, _, _, rfl, rfl, rfl,
    (seal_unseal_roundtrip gcmSealT gcmOpenT pbkdf2T "Password123"
      "Password124"
      { identity_secret := List.replicate 32 1,
        signing_key := List.replicate 32 2,
        signed_prekey_secret := List.replicate 32 3 }
      _ _ (List.replicate 32 0) (List.replicate 12 5) (List.replicate 12 6)
      (List.replicate 12 7) (List.replicate 64 4) "user123" 0 _
      rfl rfl (by decide) (by simp) (by simp) (by simp) (by simp) (by simp)
      (by simp) rfl (fun n data ct h => gcmT_roundtrip _ n data ct h)
      (fun k n data ct hk h => gcmT_reject _ k n data ct hk h)).1,
    (seal_unseal_roundtrip gcmSealT gcmOpenT pbkdf2T "Password123"
      "Password124"
      { identity_secret := List.replicate 32 1,
        signing_key := List.replicate 32 2,
        signed_prekey_secret := List.replicate 32 3 }
      _ _ (List.replicate 32 0) (List.replicate 12 5) (List.replicate 12 6)
      (List.replicate 12 7) (List.replicate 64 4) "user123" 0 _
      rfl rfl (by decide) (by simp) (by simp) (by simp) (by simp) (by simp)
      (by simp) rfl (fun n data ct h => gcmT_roundtrip _ n data ct h)
      (fun k n data ct hk h => gcmT_reject _ k n data ct hk h)).2⟩

end Construct
